import Mathlib

/-!
Verification development for the headsup check-orchestration and
state-reconciliation engine.

The definitions below are a shallow embedding of the Rust sources:
`src/state/types.rs`, `src/error.rs`, `src/config/types.rs`,
`src/claude/response.rs`, `src/email/templates.rs`, `src/cli/check.rs`
and `src/cli/notify.rs`.  Machine integers are modelled as `Nat`
(counters never overflow in the scenarios considered), `DateTime<Utc>`
as an abstract `Nat` tick supplied by the caller wherever the source
calls `Utc::now()`, `Uuid` as `Nat`, and the `HashMap<Uuid, SubjectState>`
as an association list with lookup/replace-insert semantics.  A Rust
`panic!` is modelled as `Option.none` / a dedicated `panic` outcome.
External collaborators (research backend, SMTP delivery, clock) are
passed in as explicit function arguments.
-/

namespace Headsup

abbrev Uuid := Nat

/-- Embeds `DatePrecision` from `src/state/types.rs`. -/
inductive DatePrecision where
  | exact
  | month
  | season
  | year
  | unknown
deriving Repr, DecidableEq

/-- Embeds `DatePrecision::rank`. -/
def DatePrecision.rank : DatePrecision → Nat
  | .exact => 1
  | .month => 2
  | .season => 3
  | .year => 4
  | .unknown => 5

/-- Embeds `DatePrecision::is_more_precise_than`: strictly smaller rank. -/
def DatePrecision.is_more_precise_than (a other : DatePrecision) : Bool :=
  a.rank < other.rank

/-- Embeds the `Display` impl for `DatePrecision`. -/
def DatePrecision.display : DatePrecision → String
  | .exact => "exact"
  | .month => "month"
  | .season => "season"
  | .year => "year"
  | .unknown => "unknown"

/-- Embeds `Confidence` from `src/state/types.rs`. -/
inductive Confidence where
  | official
  | reliable
  | rumor
  | speculation
  | unknown
deriving Repr, DecidableEq

/-- Embeds `Confidence::rank`. -/
def Confidence.rank : Confidence → Nat
  | .official => 1
  | .reliable => 2
  | .rumor => 3
  | .speculation => 4
  | .unknown => 5

/-- Embeds `Confidence::is_higher_than`: strictly smaller rank. -/
def Confidence.is_higher_than (a other : Confidence) : Bool :=
  a.rank < other.rank

/-- Embeds the `Display` impl for `Confidence`. -/
def Confidence.display : Confidence → String
  | .official => "Official announcement"
  | .reliable => "Reliable sources"
  | .rumor => "Rumor"
  | .speculation => "Speculation"
  | .unknown => "Unknown"

/-- Embeds `ReleaseStatus` from `src/state/types.rs`. -/
inductive ReleaseStatus where
  | announced
  | delayed
  | released
  | cancelled
  | unknown
deriving Repr, DecidableEq

/-- Embeds the `Display` impl for `ReleaseStatus`. -/
def ReleaseStatus.display : ReleaseStatus → String
  | .announced => "Announced"
  | .delayed => "Delayed"
  | .released => "Released"
  | .cancelled => "Cancelled"
  | .unknown => "Unknown"

/-- Embeds `HistoryEntry`.  The `serde_json::Value` details object is
modelled as an association list of stringified fields, exactly the keys
and values the source writes with the `json!` macro. -/
structure HistoryEntry where
  timestamp : Nat
  event : String
  details : List (String × String)
  source_url : Option String
  raw_response : Option String
deriving Repr, DecidableEq

/-- Embeds `ReleaseState`. -/
structure ReleaseState where
  last_checked : Option Nat
  known_release_date : Option String
  release_date_precision : DatePrecision
  confidence : Confidence
  status : ReleaseStatus
  last_notified : Option Nat
  imminent_notified : Bool
  consecutive_failures : Nat
  last_failure_reason : Option String
  last_failure_time : Option Nat
  history : List HistoryEntry
deriving Repr, DecidableEq

/-- Embeds the `Default` impl for `ReleaseState`. -/
def ReleaseState.default : ReleaseState where
  last_checked := none
  known_release_date := none
  release_date_precision := .unknown
  confidence := .unknown
  status := .unknown
  last_notified := none
  imminent_notified := false
  consecutive_failures := 0
  last_failure_reason := none
  last_failure_time := none
  history := []

/-- Embeds `QuestionState`. -/
structure QuestionState where
  last_checked : Option Nat
  current_answer : Option String
  confidence : Confidence
  is_definitive : Bool
  last_notified : Option Nat
  consecutive_failures : Nat
  last_failure_reason : Option String
  last_failure_time : Option Nat
  history : List HistoryEntry
deriving Repr, DecidableEq

/-- Embeds the `Default` impl for `QuestionState`. -/
def QuestionState.default : QuestionState where
  last_checked := none
  current_answer := none
  confidence := .unknown
  is_definitive := false
  last_notified := none
  consecutive_failures := 0
  last_failure_reason := none
  last_failure_time := none
  history := []

/-- Embeds `RecurringState`. -/
structure RecurringState where
  last_checked : Option Nat
  next_occurrence_date : Option String
  next_occurrence_name : Option String
  date_precision : DatePrecision
  confidence : Confidence
  last_occurrence_date : Option String
  occurrence_count : Nat
  last_notified : Option Nat
  imminent_notified : Bool
  consecutive_failures : Nat
  last_failure_reason : Option String
  last_failure_time : Option Nat
  history : List HistoryEntry
deriving Repr, DecidableEq

/-- Embeds the `Default` impl for `RecurringState`. -/
def RecurringState.default : RecurringState where
  last_checked := none
  next_occurrence_date := none
  next_occurrence_name := none
  date_precision := .unknown
  confidence := .unknown
  last_occurrence_date := none
  occurrence_count := 0
  last_notified := none
  imminent_notified := false
  consecutive_failures := 0
  last_failure_reason := none
  last_failure_time := none
  history := []

/-- Embeds the tagged union `SubjectState`. -/
inductive SubjectState where
  | release (s : ReleaseState)
  | question (s : QuestionState)
  | recurring (s : RecurringState)
deriving Repr, DecidableEq

/-- Embeds `SubjectState::consecutive_failures`. -/
def SubjectState.consecutive_failures : SubjectState → Nat
  | .release s => s.consecutive_failures
  | .question s => s.consecutive_failures
  | .recurring s => s.consecutive_failures

/-- Embeds `SubjectState::increment_failure`; `now` stands for the
`Utc::now()` call recording the failure time. -/
def SubjectState.increment_failure (st : SubjectState) (reason : String) (now : Nat) :
    SubjectState :=
  match st with
  | .release s => .release { s with
      consecutive_failures := s.consecutive_failures + 1
      last_failure_reason := some reason
      last_failure_time := some now }
  | .question s => .question { s with
      consecutive_failures := s.consecutive_failures + 1
      last_failure_reason := some reason
      last_failure_time := some now }
  | .recurring s => .recurring { s with
      consecutive_failures := s.consecutive_failures + 1
      last_failure_reason := some reason
      last_failure_time := some now }

/-- History list of whichever variant is active (used by `add_history`). -/
def SubjectState.history : SubjectState → List HistoryEntry
  | .release s => s.history
  | .question s => s.history
  | .recurring s => s.history

/-- Replace the history list of whichever variant is active (models the
in-place mutation through the `&mut` borrow in `State::add_history`). -/
def SubjectState.set_history (st : SubjectState) (h : List HistoryEntry) : SubjectState :=
  match st with
  | .release s => .release { s with history := h }
  | .question s => .question { s with history := h }
  | .recurring s => .recurring { s with history := h }

/-- Embeds `PendingNotification`.  The opaque `serde_json::Value` payload
is modelled as its serialized string. -/
structure PendingNotification where
  subject_id : Uuid
  event_type : String
  created_at : Nat
  summary : String
  source_url : Option String
  payload : String
deriving Repr, DecidableEq

/-- Embeds the root `State` document.  The `HashMap<Uuid, SubjectState>` is
modelled as an association list (`lookupA` / `insertA` below give it the
map semantics the source relies on). -/
structure State where
  version : Nat
  last_run : Option Nat
  subjects : List (Uuid × SubjectState)
  pending_notifications : List PendingNotification
deriving Repr, DecidableEq

/-- Embeds the `Default` impl for `State` (`STATE_VERSION = 1`). -/
def State.default : State where
  version := 1
  last_run := none
  subjects := []
  pending_notifications := []

/-- Association-list lookup, modelling `HashMap::get`. -/
def lookupA (l : List (Uuid × SubjectState)) (id : Uuid) : Option SubjectState :=
  match l with
  | [] => none
  | (k, v) :: rest => if k = id then some v else lookupA rest id

/-- Association-list insert-or-replace, modelling `HashMap::insert` and
mutation through `HashMap::get_mut` / `entry`. -/
def insertA (l : List (Uuid × SubjectState)) (id : Uuid) (v : SubjectState) :
    List (Uuid × SubjectState) :=
  match l with
  | [] => [(id, v)]
  | (k, w) :: rest => if k = id then (id, v) :: rest else (k, w) :: insertA rest id v

/-- Embeds `State::get_or_create_release`.  The `entry(..).or_insert_with`
step inserts a default `Release` state when the id is absent; the final
match panics on a variant mismatch, modelled as `none`. -/
def State.get_or_create_release (s : State) (id : Uuid) :
    Option (ReleaseState × State) :=
  let s1 := match lookupA s.subjects id with
    | none => { s with subjects := insertA s.subjects id (.release ReleaseState.default) }
    | some _ => s
  match lookupA s1.subjects id with
  | some (.release state) => some (state, s1)
  | _ => none

/-- Embeds `State::get_or_create_question`. -/
def State.get_or_create_question (s : State) (id : Uuid) :
    Option (QuestionState × State) :=
  let s1 := match lookupA s.subjects id with
    | none => { s with subjects := insertA s.subjects id (.question QuestionState.default) }
    | some _ => s
  match lookupA s1.subjects id with
  | some (.question state) => some (state, s1)
  | _ => none

/-- Embeds `State::get_or_create_recurring`. -/
def State.get_or_create_recurring (s : State) (id : Uuid) :
    Option (RecurringState × State) :=
  let s1 := match lookupA s.subjects id with
    | none => { s with subjects := insertA s.subjects id (.recurring RecurringState.default) }
    | some _ => s
  match lookupA s1.subjects id with
  | some (.recurring state) => some (state, s1)
  | _ => none

/-- Embeds the `while history.len() > max_entries { history.remove(0) }`
pruning loop of `State::add_history` (FIFO eviction from the front). -/
def pruneOld : List HistoryEntry → Nat → List HistoryEntry
  | [], _ => []
  | a :: t, m => if t.length + 1 > m then pruneOld t m else a :: t

/-- Embeds `State::add_history`: push the entry, then evict oldest entries
while the list exceeds `max_entries`; a no-op when the subject has no
stored state. -/
def State.add_history (s : State) (id : Uuid) (entry : HistoryEntry)
    (max_entries : Nat) : State :=
  match lookupA s.subjects id with
  | none => s
  | some st =>
      let history := pruneOld (st.history ++ [entry]) max_entries
      { s with subjects := insertA s.subjects id (st.set_history history) }

/-- Embeds `State::clear_pending_notifications` (`std::mem::take`). -/
def State.clear_pending_notifications (s : State) :
    List PendingNotification × State :=
  (s.pending_notifications, { s with pending_notifications := [] })

/-- Embeds `State::add_pending_notification` (`Vec::push`). -/
def State.add_pending_notification (s : State) (n : PendingNotification) : State :=
  { s with pending_notifications := s.pending_notifications ++ [n] }

/-- Embeds `ExitStatus` from `src/error.rs`. -/
inductive ExitStatus where
  | Success
  | GeneralError
  | PartialFailure
  | AllSubjectsFailed
  | EmailDeliveryFailed
  | Timeout
deriving Repr, DecidableEq

/-- Embeds the `repr(u8)` discriminants of `ExitStatus` (the process exit
codes 0..5). -/
def ExitStatus.code : ExitStatus → Nat
  | .Success => 0
  | .GeneralError => 1
  | .PartialFailure => 2
  | .AllSubjectsFailed => 3
  | .EmailDeliveryFailed => 4
  | .Timeout => 5

/-- Embeds `HeadsupError` from `src/error.rs`.  Payloads are reduced to
the message strings / second counts the source stores.  The variant
`PerplexityTimeout` is constructed in `src/perplexity/process.rs` and
matched in `src/cli/check.rs` although `src/error.rs` in this snapshot
omits it from the enum; it is included here so those call sites can be
embedded. -/
inductive HeadsupError where
  | Config (msg : String)
  | ConfigNotFound (path : String)
  | ConfigInvalid (msg : String)
  | State (msg : String)
  | StateLocked
  | Io (msg : String)
  | TomlParse (msg : String)
  | TomlSerialize (msg : String)
  | Json (msg : String)
  | Claude (msg : String)
  | ClaudeTimeout (seconds : Nat)
  | ClaudeParseError (msg : String)
  | PerplexityTimeout (seconds : Nat)
  | Email (msg : String)
  | SmtpConnection (msg : String)
  | SubjectNotFound (key : String)
  | SubjectKeyExists (key : String)
  | InvalidSubjectKey (key : String)
  | PasswordCommand (msg : String)
  | InvalidUrl (msg : String)
  | TotalTimeout (seconds : Nat)
  | UserCancelled
deriving Repr, DecidableEq

/-- Embeds the `thiserror`-derived `Display` messages (`error.to_string()`). -/
def HeadsupError.toMessage : HeadsupError → String
  | .Config m => "Configuration error: " ++ m
  | .ConfigNotFound p => "Configuration file not found at " ++ p
  | .ConfigInvalid m => "Invalid configuration: " ++ m
  | .State m => "State error: " ++ m
  | .StateLocked => "State file locked by another process"
  | .Io m => "IO error: " ++ m
  | .TomlParse m => "TOML parse error: " ++ m
  | .TomlSerialize m => "TOML serialize error: " ++ m
  | .Json m => "JSON error: " ++ m
  | .Claude m => "Claude error: " ++ m
  | .ClaudeTimeout n => "Claude timeout after " ++ toString n ++ " seconds"
  | .ClaudeParseError m => "Claude response parse error: " ++ m
  | .PerplexityTimeout n => "Perplexity timeout after " ++ toString n ++ " seconds"
  | .Email m => "Email error: " ++ m
  | .SmtpConnection m => "SMTP connection failed: " ++ m
  | .SubjectNotFound k => "Subject not found: " ++ k
  | .SubjectKeyExists k => "Subject key already exists: " ++ k
  | .InvalidSubjectKey k => "Invalid subject key: " ++ k
  | .PasswordCommand m => "Password command failed: " ++ m
  | .InvalidUrl m => "URL validation failed: " ++ m
  | .TotalTimeout n => "Total run timeout exceeded (" ++ toString n ++ " seconds)"
  | .UserCancelled => "User cancelled operation"

/-- Embeds `HeadsupError::exit_status`.  `PerplexityTimeout` (see above) is
mapped with the other timeout variants. -/
def HeadsupError.exit_status : HeadsupError → ExitStatus
  | .Email _ | .SmtpConnection _ => .EmailDeliveryFailed
  | .ClaudeTimeout _ | .TotalTimeout _ | .PerplexityTimeout _ => .Timeout
  | _ => .GeneralError

/-- Embeds `SubjectType` from `src/config/types.rs`. -/
inductive SubjectType where
  | release
  | question
  | recurring
deriving Repr, DecidableEq

/-- Embeds the configuration `Subject` record (the fields this core
reads). -/
structure Subject where
  id : Uuid
  key : String
  name : String
  subject_type : SubjectType
  enabled : Bool
  question : Option String
  event_name : Option String
  search_terms : List String
deriving Repr, DecidableEq

/-- Embeds `Backend` from `src/config/types.rs`. -/
inductive Backend where
  | claude
  | perplexity
deriving Repr, DecidableEq

/-- Run-budget fields of the Claude backend settings. -/
structure ClaudeSettings where
  total_run_timeout_seconds : Nat
  max_searches_per_run : Nat
  max_consecutive_failures : Nat
deriving Repr, DecidableEq

/-- Run-budget fields of the Perplexity backend settings. -/
structure PerplexitySettings where
  total_run_timeout_seconds : Nat
  max_searches_per_run : Nat
  max_consecutive_failures : Nat
deriving Repr, DecidableEq

/-- Embeds the general `Settings` section (the field this core reads). -/
structure AppSettings where
  max_history_entries : Nat
deriving Repr, DecidableEq

/-- Embeds the email settings fields this core reads. -/
structure EmailSettings where
  to_address : String
  digest_mode : Bool
deriving Repr, DecidableEq

/-- Embeds the `Config` record (the fields this core reads). -/
structure Config where
  backend : Backend
  claude : ClaudeSettings
  perplexity : PerplexitySettings
  settings : AppSettings
  email : EmailSettings
  subjects : List Subject
deriving Repr, DecidableEq

/-- Embeds `Config::find_subject`: try the argument as a UUID first
(`String.toNat?` stands in for `Uuid::parse_str` under `Uuid := Nat`),
otherwise match the key case-insensitively. -/
def Config.find_subject (c : Config) (key_or_id : String) : Option Subject :=
  match key_or_id.toNat? with
  | some uuid => c.subjects.find? (fun s => s.id == uuid)
  | none =>
      let lower := key_or_id.toLower
      c.subjects.find? (fun s => s.key.toLower == lower)

/-- Embeds `ReleaseResponse` from `src/claude/response.rs`. -/
structure ReleaseResponse where
  subject : String
  found_release_date : Option String
  release_date_precision : DatePrecision
  confidence : Confidence
  status : ReleaseStatus
  summary : String
  source_url : Option String
  source_name : Option String
  should_notify : Bool
  notify_reason : Option String
deriving Repr, DecidableEq

/-- Embeds `QuestionResponse`. -/
structure QuestionResponse where
  question : String
  found_answer : Option String
  confidence : Confidence
  is_definitive : Bool
  summary : String
  source_url : Option String
  source_name : Option String
  should_notify : Bool
  notify_reason : Option String
deriving Repr, DecidableEq

/-- Embeds `RecurringResponse`. -/
structure RecurringResponse where
  event_name : String
  next_occurrence_date : Option String
  next_occurrence_name : Option String
  date_precision : DatePrecision
  confidence : Confidence
  summary : String
  source_url : Option String
  source_name : Option String
  should_notify : Bool
  notify_reason : Option String
deriving Repr, DecidableEq

/-- Embeds `SubjectIdentificationResponse`, reduced to the matched names
(this variant never reaches the reconciliation paths verified here). -/
structure SubjectIdentificationResponse where
  match_names : List String
deriving Repr, DecidableEq

/-- Embeds the `ClaudeResponse` sum type. -/
inductive ClaudeResponse where
  | release (r : ReleaseResponse)
  | question (r : QuestionResponse)
  | recurring (r : RecurringResponse)
  | subjectIdentification (r : SubjectIdentificationResponse)
deriving Repr, DecidableEq

/-- Embeds the `should_notify` extraction in `check_subject_parallel`. -/
def ClaudeResponse.shouldNotifyFlag : ClaudeResponse → Bool
  | .release r => r.should_notify
  | .question r => r.should_notify
  | .recurring r => r.should_notify
  | .subjectIdentification _ => false

/-- Stringify an optional string field, standing in for serde_json on
`Option<String>`. -/
def optStrJson : Option String → String
  | none => "null"
  | some s => "\"" ++ s ++ "\""

/-- Stringify a boolean field, standing in for serde_json on `bool`. -/
def boolStr : Bool → String
  | true => "true"
  | false => "false"

/-- Stand-in for `serde_json::to_string` on a `ReleaseResponse` (used for
the audit `raw_response` payload; never parsed back). -/
def ReleaseResponse.serialize (r : ReleaseResponse) : String :=
  "subject=" ++ r.subject ++
  ",found_release_date=" ++ optStrJson r.found_release_date ++
  ",release_date_precision=" ++ r.release_date_precision.display ++
  ",confidence=" ++ r.confidence.display ++
  ",status=" ++ r.status.display ++
  ",summary=" ++ r.summary ++
  ",source_url=" ++ optStrJson r.source_url ++
  ",should_notify=" ++ boolStr r.should_notify

/-- Stand-in for `serde_json::to_string` on a `QuestionResponse`. -/
def QuestionResponse.serialize (r : QuestionResponse) : String :=
  "question=" ++ r.question ++
  ",found_answer=" ++ optStrJson r.found_answer ++
  ",confidence=" ++ r.confidence.display ++
  ",is_definitive=" ++ boolStr r.is_definitive ++
  ",summary=" ++ r.summary ++
  ",source_url=" ++ optStrJson r.source_url ++
  ",should_notify=" ++ boolStr r.should_notify

/-- Stand-in for `serde_json::to_string` on a `RecurringResponse`. -/
def RecurringResponse.serialize (r : RecurringResponse) : String :=
  "event_name=" ++ r.event_name ++
  ",next_occurrence_date=" ++ optStrJson r.next_occurrence_date ++
  ",next_occurrence_name=" ++ optStrJson r.next_occurrence_name ++
  ",date_precision=" ++ r.date_precision.display ++
  ",confidence=" ++ r.confidence.display ++
  ",summary=" ++ r.summary ++
  ",source_url=" ++ optStrJson r.source_url ++
  ",should_notify=" ++ boolStr r.should_notify

/-- Embeds `EmailContent` from `src/email/templates.rs`. -/
structure EmailContent where
  subject : String
  body : String
deriving Repr, DecidableEq

/-- Embeds the `SEPARATOR` constant. -/
def SEPARATOR : String :=
  "━━━━━━━━━━━━━━━━━━━━━━━━━━━━━━━━━━━━━━━━━━━━━━━━━━━━"

/-- Embeds the `FOOTER` constant. -/
def FOOTER : String := "This is an automated message from Headsup."

/-- Embeds `determine_release_event_type`. -/
def determine_release_event_type (response : ReleaseResponse)
    (previous : Option ReleaseState) : String :=
  match previous with
  | none =>
      if response.found_release_date.isSome then
        "Release Date Announced"
      else
        "Status Update"
  | some state =>
      if state.known_release_date.isNone && response.found_release_date.isSome then
        "Release Date Announced"
      else if state.known_release_date ≠ response.found_release_date then
        "Release Date Changed"
      else if response.release_date_precision.is_more_precise_than
          state.release_date_precision then
        "Release Date Refined"
      else if response.confidence.is_higher_than state.confidence then
        "Confidence Upgraded"
      else
        "Status Update"

/-- Embeds `determine_question_event_type`. -/
def determine_question_event_type (response : QuestionResponse)
    (previous : Option QuestionState) : String :=
  match previous with
  | none =>
      if response.found_answer.isSome then
        "Answer Found"
      else
        "Status Update"
  | some state =>
      if state.current_answer.isNone && response.found_answer.isSome then
        "Answer Found"
      else if state.current_answer ≠ response.found_answer then
        "Answer Changed"
      else if response.confidence.is_higher_than state.confidence then
        "Confidence Upgraded"
      else if response.is_definitive && !state.is_definitive then
        "Answer Confirmed"
      else
        "Status Update"

/-- Embeds `determine_recurring_event_type`. -/
def determine_recurring_event_type (response : RecurringResponse)
    (previous : Option RecurringState) : String :=
  match previous with
  | none =>
      if response.next_occurrence_date.isSome then
        "Next Event Announced"
      else
        "Status Update"
  | some state =>
      if state.next_occurrence_date.isNone && response.next_occurrence_date.isSome then
        "Next Event Announced"
      else if state.next_occurrence_date ≠ response.next_occurrence_date then
        "Event Date Changed"
      else
        "Status Update"

/-- Embeds `build_release_email` (body assembled with the same pieces the
`format!` call interpolates). -/
def build_release_email (subject : Subject) (response : ReleaseResponse)
    (previous_state : Option ReleaseState) : EmailContent :=
  let event_type := determine_release_event_type response previous_state
  let email_subject := "[Headsup] " ++ subject.name ++ " - " ++ event_type
  let previous_info := match previous_state with
    | some state =>
        match state.known_release_date with
        | some date =>
            "Previous Status:\n  Release date: " ++ date ++ " (" ++
              state.confidence.display ++ ")"
        | none => "Previous Status:\n  No release date was previously known."
    | none => "Previous Status:\n  No release date was previously known."
  let source_info := match response.source_url with
    | some url => "Source:\n  " ++ url
    | none => "Source:\n  No source URL available"
  let body :=
    SEPARATOR ++ "\n\n" ++
    subject.name ++ " - " ++ event_type ++ "\n\n" ++
    "New Information:\n  " ++ response.summary ++ "\n\n" ++
    previous_info ++ "\n\n" ++
    source_info ++ "\n\n" ++
    "Confidence: " ++ response.confidence.display ++ "\n\n" ++
    SEPARATOR ++ "\n\n" ++ FOOTER
  { subject := email_subject, body := body }

/-- Embeds `build_question_email`. -/
def build_question_email (subject : Subject) (response : QuestionResponse)
    (previous_state : Option QuestionState) : EmailContent :=
  let event_type := determine_question_event_type response previous_state
  let email_subject := "[Headsup] " ++ subject.name ++ " - " ++ event_type
  let question := match subject.question with
    | some q => q
    | none => "Unknown question"
  let previous_info := match previous_state with
    | some state =>
        match state.current_answer with
        | some answer =>
            "Previous Status:\n  " ++ answer ++ " (" ++ state.confidence.display ++ ")"
        | none => "Previous Status:\n  No answer was previously known."
    | none => "Previous Status:\n  No answer was previously known."
  let answer_info := match response.found_answer with
    | some a => "Answer:\n  " ++ a
    | none => "Answer:\n  No answer found."
  let source_info := match response.source_url with
    | some url => "Source:\n  " ++ url
    | none => "Source:\n  No source URL available"
  let body :=
    SEPARATOR ++ "\n\n" ++
    subject.name ++ " - " ++ event_type ++ "\n\n" ++
    "Question:\n  " ++ question ++ "\n\n" ++
    answer_info ++ "\n\n" ++
    previous_info ++ "\n\n" ++
    source_info ++ "\n\n" ++
    "Confidence: " ++ response.confidence.display ++ "\n\n" ++
    SEPARATOR ++ "\n\n" ++ FOOTER
  { subject := email_subject, body := body }

/-- Embeds `build_recurring_email`. -/
def build_recurring_email (subject : Subject) (response : RecurringResponse)
    (previous_state : Option RecurringState) : EmailContent :=
  let event_type := determine_recurring_event_type response previous_state
  let email_subject := "[Headsup] " ++ subject.name ++ " - " ++ event_type
  let default_event_name := match subject.event_name with
    | some n => n
    | none => ""
  let event_name := match response.next_occurrence_name with
    | some n => n
    | none => default_event_name
  let date_info := match response.next_occurrence_date with
    | some d => "Date: " ++ d
    | none => "Date: Unknown"
  let previous_info := match previous_state with
    | some state =>
        match state.last_occurrence_date with
        | some date => "Previous Event:\n  " ++ date
        | none => "Previous Event:\n  No previous event recorded."
    | none => "Previous Event:\n  No previous event recorded."
  let source_info := match response.source_url with
    | some url => "Source:\n  " ++ url
    | none => "Source:\n  No source URL available"
  let body :=
    SEPARATOR ++ "\n\n" ++
    subject.name ++ " - " ++ event_type ++ "\n\n" ++
    "Event: " ++ event_name ++ "\n" ++ date_info ++ "\n\n" ++
    "Details:\n  " ++ response.summary ++ "\n\n" ++
    previous_info ++ "\n\n" ++
    source_info ++ "\n\n" ++
    SEPARATOR ++ "\n\n" ++ FOOTER
  { subject := email_subject, body := body }

/-- Embeds `build_digest_email`. -/
def build_digest_email (notifications : List PendingNotification)
    (subjects : List Subject) : EmailContent :=
  let email_subject := "[Headsup] " ++ toString notifications.length ++ " Updates"
  let items := notifications.map (fun notif =>
    let subject_name := match subjects.find? (fun s => s.id == notif.subject_id) with
      | some s => s.name
      | none => "Unknown"
    "- " ++ subject_name ++ " (" ++ notif.event_type ++ ")\n  " ++ notif.summary)
  let body :=
    SEPARATOR ++ "\n\n" ++
    "Headsup - " ++ toString notifications.length ++ " Updates\n\n" ++
    String.intercalate "\n\n" items ++ "\n\n" ++
    SEPARATOR ++ "\n\n" ++ FOOTER
  { subject := email_subject, body := body }

/-- Embeds `build_subject_disabled_email` (defined in
`src/email/templates.rs`; note that no call site exists anywhere in the
sources).  `\x27` is the ASCII apostrophe the source puts around the
subject name and key. -/
def build_subject_disabled_email (subject : Subject) (failures : Nat) : EmailContent :=
  { subject := "[Headsup] Subject \x27" ++ subject.name ++ "\x27 Disabled"
    body :=
      SEPARATOR ++ "\n\n" ++
      "Subject Auto-Disabled\n\n" ++
      "The subject \"" ++ subject.name ++ "\" has been automatically disabled after " ++
        toString failures ++ " consecutive failures.\n\n" ++
      "To re-enable this subject, run:\n  headsup subjects enable " ++ subject.key ++
        "\n\n" ++
      SEPARATOR ++ "\n\n" ++ FOOTER }

/-- Embeds `CheckResult` from `src/cli/check.rs`. -/
structure CheckResult where
  subject_id : Uuid
  subject_name : String
  success : Bool
  notified : Bool
  error : Option String
deriving Repr, DecidableEq

/-- Embeds `process_release_response`.  Note the `get_or_create_release`
call happens before the dry-run branch, exactly as in the source; a
variant-mismatch panic is modelled as `none`.  Returns the updated state
and the notify flag. -/
def process_release_response (config : Config) (subject : Subject)
    (response : ReleaseResponse) (state : State) (dry_run : Bool) (now : Nat) :
    Option (State × Bool) :=
  match state.get_or_create_release subject.id with
  | none => none
  | some (release_state, state1) =>
      let should_notify := response.should_notify
      if dry_run then
        some (state1, should_notify)
      else
        let release_state1 : ReleaseState := { release_state with
          last_checked := some now
          known_release_date := response.found_release_date
          release_date_precision := response.release_date_precision
          confidence := response.confidence
          status := response.status
          consecutive_failures := 0
          last_failure_reason := none
          last_failure_time := none
          last_notified := if should_notify then some now else release_state.last_notified }
        let state2 := { state1 with
          subjects := insertA state1.subjects subject.id (.release release_state1) }
        let entry : HistoryEntry :=
          { timestamp := now
            event := "check"
            details :=
              [("found_release_date", optStrJson response.found_release_date),
               ("precision", response.release_date_precision.display),
               ("confidence", response.confidence.display),
               ("status", response.status.display),
               ("should_notify", boolStr should_notify)]
            source_url := response.source_url
            raw_response := some response.serialize }
        some (state2.add_history subject.id entry config.settings.max_history_entries,
          should_notify)

/-- Embeds `process_question_response`. -/
def process_question_response (config : Config) (subject : Subject)
    (response : QuestionResponse) (state : State) (dry_run : Bool) (now : Nat) :
    Option (State × Bool) :=
  match state.get_or_create_question subject.id with
  | none => none
  | some (question_state, state1) =>
      let should_notify := response.should_notify
      if dry_run then
        some (state1, should_notify)
      else
        let question_state1 : QuestionState := { question_state with
          last_checked := some now
          current_answer := response.found_answer
          confidence := response.confidence
          is_definitive := response.is_definitive
          consecutive_failures := 0
          last_failure_reason := none
          last_failure_time := none
          last_notified := if should_notify then some now else question_state.last_notified }
        let state2 := { state1 with
          subjects := insertA state1.subjects subject.id (.question question_state1) }
        let entry : HistoryEntry :=
          { timestamp := now
            event := "check"
            details :=
              [("found_answer", optStrJson response.found_answer),
               ("confidence", response.confidence.display),
               ("is_definitive", boolStr response.is_definitive),
               ("should_notify", boolStr should_notify)]
            source_url := response.source_url
            raw_response := some response.serialize }
        some (state2.add_history subject.id entry config.settings.max_history_entries,
          should_notify)

/-- Embeds `process_recurring_response`. -/
def process_recurring_response (config : Config) (subject : Subject)
    (response : RecurringResponse) (state : State) (dry_run : Bool) (now : Nat) :
    Option (State × Bool) :=
  match state.get_or_create_recurring subject.id with
  | none => none
  | some (recurring_state, state1) =>
      let should_notify := response.should_notify
      if dry_run then
        some (state1, should_notify)
      else
        let recurring_state1 : RecurringState := { recurring_state with
          last_checked := some now
          next_occurrence_date := response.next_occurrence_date
          next_occurrence_name := response.next_occurrence_name
          date_precision := response.date_precision
          confidence := response.confidence
          consecutive_failures := 0
          last_failure_reason := none
          last_failure_time := none
          last_notified := if should_notify then some now else recurring_state.last_notified }
        let state2 := { state1 with
          subjects := insertA state1.subjects subject.id (.recurring recurring_state1) }
        let entry : HistoryEntry :=
          { timestamp := now
            event := "check"
            details :=
              [("next_occurrence_date", optStrJson response.next_occurrence_date),
               ("next_occurrence_name", optStrJson response.next_occurrence_name),
               ("date_precision", response.date_precision.display),
               ("confidence", response.confidence.display),
               ("should_notify", boolStr should_notify)]
            source_url := response.source_url
            raw_response := some response.serialize }
        some (state2.add_history subject.id entry config.settings.max_history_entries,
          should_notify)

/-- Embeds `send_notification`: builds the email content from the response
and the pre-mutation snapshot.  Returns the content handed to
`email::send_email`, or `none` for the `SubjectIdentification` early
return (which sends nothing). -/
def send_notification (subject : Subject) (response : ClaudeResponse)
    (previous_state : Option SubjectState) : Option EmailContent :=
  match response with
  | .release r =>
      let prev := match previous_state with
        | some (.release rs) => some rs
        | _ => none
      some (build_release_email subject r prev)
  | .question r =>
      let prev := match previous_state with
        | some (.question qs) => some qs
        | _ => none
      some (build_question_email subject r prev)
  | .recurring r =>
      let prev := match previous_state with
        | some (.recurring rs) => some rs
        | _ => none
      some (build_recurring_email subject r prev)
  | .subjectIdentification _ => none

/-- Embeds the free function `add_pending_notification` in
`src/cli/check.rs`. -/
def add_pending_notification (subject : Subject) (response : ClaudeResponse)
    (state : State) (now : Nat) : State :=
  match response with
  | .release r =>
      state.add_pending_notification
        { subject_id := subject.id
          event_type := "release_update"
          created_at := now
          summary := r.summary
          source_url := r.source_url
          payload := r.serialize }
  | .question r =>
      state.add_pending_notification
        { subject_id := subject.id
          event_type := "question_update"
          created_at := now
          summary := r.summary
          source_url := r.source_url
          payload := r.serialize }
  | .recurring r =>
      state.add_pending_notification
        { subject_id := subject.id
          event_type := "recurring_update"
          created_at := now
          summary := r.summary
          source_url := r.source_url
          payload := r.serialize }
  | .subjectIdentification _ => state

/-- Embeds `process_successful_check`.  `send_ok` models the external
`email::send_email` collaborator (true = delivery succeeded).  Returns
the per-subject result, the updated state, and the emails whose delivery
was attempted; `none` models the variant-mismatch panic inside the
`process_*_response` call. -/
def process_successful_check (config : Config) (subject : Subject)
    (response : ClaudeResponse) (state : State) (dry_run no_notify : Bool)
    (send_ok : EmailContent → Bool) (now : Nat) :
    Option (CheckResult × State × List EmailContent) :=
  let result0 : CheckResult :=
    { subject_id := subject.id
      subject_name := subject.name
      success := true
      notified := false
      error := none }
  let previous_state := lookupA state.subjects subject.id
  let processed : Option (State × Bool) := match response with
    | .release r => process_release_response config subject r state dry_run now
    | .question r => process_question_response config subject r state dry_run now
    | .recurring r => process_recurring_response config subject r state dry_run now
    | .subjectIdentification _ => some (state, false)
  match processed with
  | none => none
  | some (state1, notify_flag) =>
      if notify_flag && !no_notify && !dry_run then
        match send_notification subject response previous_state with
        | some content =>
            if send_ok content then
              some ({ result0 with notified := true }, state1, [content])
            else
              some (result0, state1, [content])
        | none => some (result0, state1, [])
      else if notify_flag && no_notify && !dry_run then
        some (result0, add_pending_notification subject response state1 now, [])
      else
        some (result0, state1, [])

/-- Embeds `process_failed_check`: records the classified failure on an
existing subject state (non-dry-run only); a subject without stored state
is left untouched.  The `max_failures` parameter mirrors the source,
which accepts and ignores it. -/
def process_failed_check (config : Config) (subject : Subject)
    (error : HeadsupError) (state : State) (dry_run : Bool) (max_failures : Nat)
    (now : Nat) : CheckResult × State :=
  let result : CheckResult :=
    { subject_id := subject.id
      subject_name := subject.name
      success := false
      notified := false
      error := some error.toMessage }
  if dry_run then
    (result, state)
  else
    let failure_reason := match error with
      | .ClaudeTimeout _ | .PerplexityTimeout _ => "timeout"
      | .ClaudeParseError _ => "parse_error"
      | _ => "api_error"
    match lookupA state.subjects subject.id with
    | some subject_state =>
        (result, { state with
          subjects := insertA state.subjects subject.id
            (subject_state.increment_failure failure_reason now) })
    | none => (result, state)

/-- Outcome of a modelled run: `panic` stands for a Rust `panic!`, `err`
for an early `?` propagation, `ok` for a normal return. -/
inductive RunResult (α : Type) where
  | panic : RunResult α
  | err : HeadsupError → RunResult α
  | ok : α → RunResult α
deriving Repr, DecidableEq

/-- Map over the `ok` payload of a `RunResult`. -/
def RunResult.map {α β : Type} (f : α → β) : RunResult α → RunResult β
  | .panic => .panic
  | .err e => .err e
  | .ok a => .ok (f a)

/-- Observable outcome of `run_check`: the in-memory state at the end of
the run, whether `save_state` was invoked, the exit classification, the
per-subject results, and every email whose delivery was attempted. -/
structure RunOutput where
  state : State
  saved : Bool
  exit : ExitStatus
  results : List CheckResult
  emails : List EmailContent
deriving Repr, DecidableEq

/-- Embeds step (1) of the selection in `run_check`: the single filtered
subject, or all enabled subjects in configuration order. -/
def resolve_targets (config : Config) (subject_key : Option String) :
    Except HeadsupError (List Subject) :=
  match subject_key with
  | some key =>
      match config.find_subject key with
      | some subject => .ok [subject]
      | none => .error (.SubjectNotFound key)
  | none => .ok (config.subjects.filter (fun s => s.enabled))

/-- Embeds the backend match at the top of `run_check` selecting the
run budgets `(total_run_timeout, max_searches, max_failures)` from the
configured backend section. -/
def run_budgets (config : Config) : Nat × Nat × Nat :=
  match config.backend with
  | .claude =>
      (config.claude.total_run_timeout_seconds,
       config.claude.max_searches_per_run,
       config.claude.max_consecutive_failures)
  | .perplexity =>
      (config.perplexity.total_run_timeout_seconds,
       config.perplexity.max_searches_per_run,
       config.perplexity.max_consecutive_failures)

/-- Embeds steps (2) and (3) of the selection in `run_check`: drop
subjects at or over the consecutive-failure threshold, then truncate to
`max_searches` entries. -/
def filter_and_truncate (state : State) (subjects : List Subject)
    (max_failures max_searches : Nat) : List Subject :=
  (subjects.filter (fun subject =>
    match lookupA state.subjects subject.id with
    | some subject_state =>
        if subject_state.consecutive_failures ≥ max_failures then false else true
    | none => true)).take max_searches

/-- Embeds the sequential reconciliation loop of `run_check` over the
results of the parallel phase. -/
def processAll (config : Config) (dry_run no_notify : Bool)
    (send_ok : EmailContent → Bool) (max_failures : Nat) (now : Nat) :
    List (Subject × Except HeadsupError (ClaudeResponse × Bool)) → State →
    List CheckResult → List EmailContent →
    RunResult (State × List CheckResult × List EmailContent)
  | [], state, results, emails => .ok (state, results, emails)
  | (subject, check_result) :: rest, state, results, emails =>
      match check_result with
      | .ok (response, _should_notify) =>
          match process_successful_check config subject response state dry_run
              no_notify send_ok now with
          | none => .panic
          | some (result, state1, emails1) =>
              processAll config dry_run no_notify send_ok max_failures now rest
                state1 (results ++ [result]) (emails ++ emails1)
      | .error e =>
          let (result, state1) :=
            process_failed_check config subject e state dry_run max_failures now
          processAll config dry_run no_notify send_ok max_failures now rest
            state1 (results ++ [result]) emails

/-- Embeds `run_check` (the pure part, after config and state are
loaded).  External effects are parameters: `investigate` is the research
backend (one call per selected subject with that subject's pre-run state
snapshot), `batch_timed_out` tells whether the whole-batch
`tokio::time::timeout` elapsed (in which case the source discards the
batch and continues with an empty result vector), `send_ok` is SMTP
delivery, and `now` is the clock.  `save_state` is modelled by the
`saved` flag of the output. -/
def run_check_pure (config : Config) (state0 : State) (subject_key : Option String)
    (dry_run _force no_notify : Bool)
    (investigate : Subject → Option SubjectState → Except HeadsupError ClaudeResponse)
    (batch_timed_out : Bool) (send_ok : EmailContent → Bool) (now : Nat) :
    RunResult RunOutput :=
  let budgets := run_budgets config
  let total_run_timeout := budgets.1
  let max_searches := budgets.2.1
  let max_failures := budgets.2.2
  match resolve_targets config subject_key with
  | .error e => .err e
  | .ok subjects_to_check =>
      if subjects_to_check.isEmpty then
        .ok { state := state0, saved := false, exit := .Success, results := [], emails := [] }
      else
        let selected := filter_and_truncate state0 subjects_to_check max_failures max_searches
        if selected.isEmpty then
          .ok { state := state0, saved := false, exit := .Success, results := [], emails := [] }
        else
          let parallel_results :
              List (Subject × Except HeadsupError (ClaudeResponse × Bool)) :=
            if batch_timed_out && total_run_timeout > 0 then
              []
            else
              selected.map (fun subject =>
                (subject,
                 match investigate subject (lookupA state0.subjects subject.id) with
                 | .ok response => .ok (response, response.shouldNotifyFlag)
                 | .error e => .error e))
          match processAll config dry_run no_notify send_ok max_failures now
              parallel_results state0 [] [] with
          | .panic => .panic
          | .err e => .err e
          | .ok (state1, results, emails) =>
              let state2 := { state1 with last_run := some now }
              let success_count := (results.filter (fun r => r.success)).length
              let failure_count := (results.filter (fun r => !r.success)).length
              let exit :=
                if failure_count = 0 then ExitStatus.Success
                else if success_count = 0 then ExitStatus.AllSubjectsFailed
                else ExitStatus.PartialFailure
              .ok { state := state2, saved := !dry_run, exit := exit,
                    results := results, emails := emails }

/-- Embeds `send_digest` from `src/cli/notify.rs` (`send_ok` models
`email::send_email`). -/
def send_digest_pure (config : Config) (notifications : List PendingNotification)
    (send_ok : EmailContent → Bool) : Except HeadsupError Nat :=
  let content := build_digest_email notifications config.subjects
  if send_ok content then .ok 1 else .error (.Email "delivery failed")

/-- Embeds `send_individual` from `src/cli/notify.rs`: sends one message
per entry, stopping at the first failure. -/
def send_individual_pure (config : Config) (notifications : List PendingNotification)
    (send_ok : EmailContent → Bool) : Except HeadsupError Nat :=
  match notifications with
  | [] => .ok 0
  | notif :: rest =>
      let subject_name := match config.subjects.find? (fun s => s.id == notif.subject_id) with
        | some s => s.name
        | none => "Unknown"
      let content : EmailContent :=
        { subject := "[Headsup] " ++ subject_name ++ " - " ++ notif.event_type
          body := notif.summary ++ "\n\nSource: " ++
            (match notif.source_url with | some u => u | none => "N/A") ++
            "\n\nThis is an automated message from Headsup." }
      if send_ok content then
        match send_individual_pure config rest send_ok with
        | .ok sent => .ok (sent + 1)
        | .error e => .error e
      else .error (.Email "delivery failed")

/-- Observable outcome of `run_notify`. -/
structure NotifyOutput where
  state : State
  saved : Bool
  exit : ExitStatus
  sent : Nat
deriving Repr, DecidableEq

/-- Embeds `run_notify` (the pure part, after config and state are
loaded): drains the whole pending queue, sends a digest or individual
messages, and on any delivery failure pushes every drained entry back and
re-persists. -/
def run_notify_pure (config : Config) (state0 : State) (dry_run digest : Bool)
    (send_ok : EmailContent → Bool) : NotifyOutput :=
  if state0.pending_notifications.isEmpty then
    { state := state0, saved := false, exit := .Success, sent := 0 }
  else
    let drained := state0.clear_pending_notifications
    let notifications := drained.1
    let state1 := drained.2
    let use_digest := digest || config.email.digest_mode
    if dry_run then
      { state := state1, saved := false, exit := .Success, sent := 0 }
    else
      let result :=
        if use_digest then send_digest_pure config notifications send_ok
        else send_individual_pure config notifications send_ok
      match result with
      | .ok sent => { state := state1, saved := true, exit := .Success, sent := sent }
      | .error _ =>
          let state2 := notifications.foldl
            (fun st notif => st.add_pending_notification notif) state1
          { state := state2, saved := true, exit := .EmailDeliveryFailed, sent := 0 }

/-- Concrete release-type subject used in concrete scenarios. -/
def subjX : Subject :=
  { id := 1
    key := "game"
    name := "Game"
    subject_type := .release
    enabled := true
    question := none
    event_name := none
    search_terms := ["game release date"] }

/-- Concrete configuration used in concrete scenarios: Claude backend,
60 s whole-run timeout, 10 searches per run, 3 consecutive failures,
50 history entries. -/
def cfgX : Config :=
  { backend := .claude
    claude :=
      { total_run_timeout_seconds := 60
        max_searches_per_run := 10
        max_consecutive_failures := 3 }
    perplexity :=
      { total_run_timeout_seconds := 0
        max_searches_per_run := 5
        max_consecutive_failures := 3 }
    settings := { max_history_entries := 50 }
    email := { to_address := "user@example.com", digest_mode := false }
    subjects := [subjX] }

/-- Configuration with no subjects at all (used for the dry-run witness). -/
def cfgEmpty : Config := { cfgX with subjects := [] }

/-- Concrete state where the subject has two consecutive failures — one
below the threshold of three. -/
def stX : State :=
  { State.default with
    subjects := [(1, .release { ReleaseState.default with consecutive_failures := 2 })] }

/-- Concrete release response used in concrete scenarios. -/
def respX : ReleaseResponse :=
  { subject := "Game"
    found_release_date := some "2025-11-10"
    release_date_precision := .exact
    confidence := .official
    status := .announced
    summary := "Release date announced."
    source_url := some "https://example.com/news"
    source_name := some "Example"
    should_notify := true
    notify_reason := some "date found" }

/-- Concrete state holding one pending notification (used for the digest
drain witness). -/
def stPending : State :=
  { State.default with
    pending_notifications :=
      [{ subject_id := 1
         event_type := "release_update"
         created_at := 3
         summary := "Release date announced."
         source_url := none
         payload := "p" }] }

/-- Iterates `process_release_checks` n times in non-dry-run mode, using
the iteration index as the clock, to model checking one subject
repeatedly across runs. -/
def repeated_release_checks (config : Config) (subject : Subject)
    (response : Nat → ReleaseResponse) : Nat → State → Option State
  | 0, s => some s
  | n + 1, s =>
      match repeated_release_checks config subject response n s with
      | none => none
      | some s1 =>
          match process_release_response config subject (response n) s1 false n with
          | none => none
          | some (s2, _) => some s2

/-- Concrete previous release state with Rumor confidence. -/
def prevRumor : ReleaseState := { ReleaseState.default with confidence := .rumor }

/-- Concrete previous release state that already matches `respX` exactly. -/
def prevSame : ReleaseState :=
  { ReleaseState.default with
    known_release_date := some "2025-11-10"
    release_date_precision := .exact
    confidence := .official }

/-- Concrete state storing a Question variant under id 1. -/
def stQuestion : State :=
  { State.default with subjects := [(1, .question QuestionState.default)] }

/-- Concrete stored subject state with two consecutive failures. -/
def stRel2 : SubjectState :=
  .release { ReleaseState.default with consecutive_failures := 2 }

/-- Concrete bare history entry. -/
def entry9 : HistoryEntry :=
  { timestamp := 9, event := "check", details := [], source_url := none,
    raw_response := none }

theorem lookupA_insertA_self (l : List (Uuid × SubjectState)) (id : Uuid)
    (v : SubjectState) : lookupA (insertA l id v) id = some v := by
  induction l with
  | nil => simp [insertA, lookupA]
  | cons p rest ih =>
      obtain ⟨k, w⟩ := p
      by_cases hk : k = id
      · simp [insertA, hk, lookupA]
      · simp [insertA, hk, lookupA, ih]

theorem lookupA_insertA_of_ne (l : List (Uuid × SubjectState)) (id j : Uuid)
    (v : SubjectState) (h : j ≠ id) :
    lookupA (insertA l id v) j = lookupA l j := by
  have hij : id ≠ j := fun he => h he.symm
  induction l with
  | nil => simp [insertA, lookupA, hij]
  | cons p rest ih =>
      obtain ⟨k, w⟩ := p
      by_cases hk : k = id
      · subst hk
        simp [insertA, lookupA, hij]
      · simp [insertA, lookupA, hk, ih]

theorem pruneOld_eq_drop (h : List HistoryEntry) (m : Nat) :
    pruneOld h m = h.drop (h.length - m) := by
  induction h with
  | nil => simp [pruneOld]
  | cons a t ih =>
      simp only [pruneOld]
      by_cases hl : t.length + 1 > m
      · rw [if_pos hl, ih]
        have hsub : (a :: t).length - m = (t.length - m) + 1 := by
          simp only [List.length_cons]
          omega
        rw [hsub, List.drop_succ_cons]
      · rw [if_neg hl]
        have hsub : (a :: t).length - m = 0 := by
          simp only [List.length_cons]
          omega
        rw [hsub, List.drop_zero]

theorem add_history_lookup_some (s : State) (id : Uuid) (entry : HistoryEntry)
    (m : Nat) (st : SubjectState) (h : lookupA s.subjects id = some st) :
    lookupA (s.add_history id entry m).subjects id =
      some (st.set_history ((st.history ++ [entry]).drop (st.history.length + 1 - m))) := by
  unfold State.add_history
  rw [h]
  simp only [lookupA_insertA_self, pruneOld_eq_drop, List.length_append,
    List.length_singleton]

theorem get_or_create_release_of_none (s : State) (id : Uuid)
    (h : lookupA s.subjects id = none) :
    s.get_or_create_release id = some (ReleaseState.default,
      { s with subjects := insertA s.subjects id (.release ReleaseState.default) }) := by
  unfold State.get_or_create_release
  rw [h]
  simp [lookupA_insertA_self]

theorem add_history_isSome (s : State) (id : Uuid) (entry : HistoryEntry) (m : Nat)
    (h : (lookupA s.subjects id).isSome = true) :
    (lookupA (s.add_history id entry m).subjects id).isSome = true := by
  cases hl : lookupA s.subjects id with
  | none => simp [hl] at h
  | some st =>
      unfold State.add_history
      rw [hl]
      simp [lookupA_insertA_self]

theorem pending_foldl_add (l : List PendingNotification) (s : State) :
    (l.foldl (fun st notif => st.add_pending_notification notif) s).pending_notifications =
      s.pending_notifications ++ l := by
  induction l generalizing s with
  | nil => simp
  | cons a t ih =>
      rw [List.foldl_cons, ih]
      simp [State.add_pending_notification]

/-- C8: with previous confidence `Rumor` and new confidence `Official`, the
release and question event-type classifications always yield one of the
announcement/change/upgrade labels and never the neutral
"Status Update" label (and no downgrade label exists in their codomain),
regardless of the other fields. -/
theorem confidence_upgrade_monotonic :
    (∀ (response : ReleaseResponse) (prev : ReleaseState),
       prev.confidence = .rumor → response.confidence = .official →
       (determine_release_event_type response (some prev) = "Release Date Announced" ∨
        determine_release_event_type response (some prev) = "Release Date Changed" ∨
        determine_release_event_type response (some prev) = "Release Date Refined" ∨
        determine_release_event_type response (some prev) = "Confidence Upgraded") ∧
       determine_release_event_type response (some prev) ≠ "Status Update") ∧
    (∀ (response : QuestionResponse) (prev : QuestionState),
       prev.confidence = .rumor → response.confidence = .official →
       (determine_question_event_type response (some prev) = "Answer Found" ∨
        determine_question_event_type response (some prev) = "Answer Changed" ∨
        determine_question_event_type response (some prev) = "Confidence Upgraded") ∧
       determine_question_event_type response (some prev) ≠ "Status Update") := by
  constructor
  · intro response prev h1 h2
    simp only [determine_release_event_type, h1, h2]
    have hup : Confidence.is_higher_than .official .rumor = true := by decide
    split_ifs <;> simp_all <;> decide
  · intro response prev h1 h2
    simp only [determine_question_event_type, h1, h2]
    have hup : Confidence.is_higher_than .official .rumor = true := by decide
    split_ifs <;> simp_all <;> decide

/-- Witness for C8 at a concrete rumor-to-official upgrade. -/
theorem confidence_upgrade_monotonic_witness :
    prevRumor.confidence = .rumor ∧ respX.confidence = .official ∧
    determine_release_event_type respX (some prevRumor) ≠ "Status Update" :=
  ⟨rfl, rfl, (confidence_upgrade_monotonic.1 respX prevRumor rfl rfl).2⟩

/-- C9: each `get_or_create_*` accessor panics (modelled as `none`) when
the stored variant mismatches the requested one, creates and returns a
default state when none is stored, and returns the stored state unchanged
when the variant matches — it never coerces a stored variant. -/
theorem wrong_variant_accessor_panics :
    (∀ (s : State) (id : Uuid) (st : SubjectState),
       lookupA s.subjects id = some st → (∀ r, st ≠ .release r) →
       s.get_or_create_release id = none) ∧
    (∀ (s : State) (id : Uuid),
       lookupA s.subjects id = none →
       s.get_or_create_release id = some (ReleaseState.default,
         { s with subjects := insertA s.subjects id (.release ReleaseState.default) })) ∧
    (∀ (s : State) (id : Uuid) (r : ReleaseState),
       lookupA s.subjects id = some (.release r) →
       s.get_or_create_release id = some (r, s)) ∧
    (∀ (s : State) (id : Uuid) (st : SubjectState),
       lookupA s.subjects id = some st → (∀ q, st ≠ .question q) →
       s.get_or_create_question id = none) ∧
    (∀ (s : State) (id : Uuid),
       lookupA s.subjects id = none →
       s.get_or_create_question id = some (QuestionState.default,
         { s with subjects := insertA s.subjects id (.question QuestionState.default) })) ∧
    (∀ (s : State) (id : Uuid) (q : QuestionState),
       lookupA s.subjects id = some (.question q) →
       s.get_or_create_question id = some (q, s)) ∧
    (∀ (s : State) (id : Uuid) (st : SubjectState),
       lookupA s.subjects id = some st → (∀ r, st ≠ .recurring r) →
       s.get_or_create_recurring id = none) ∧
    (∀ (s : State) (id : Uuid),
       lookupA s.subjects id = none →
       s.get_or_create_recurring id = some (RecurringState.default,
         { s with subjects := insertA s.subjects id (.recurring RecurringState.default) })) ∧
    (∀ (s : State) (id : Uuid) (r : RecurringState),
       lookupA s.subjects id = some (.recurring r) →
       s.get_or_create_recurring id = some (r, s)) := by
  refine ⟨?_, ?_, ?_, ?_, ?_, ?_, ?_, ?_, ?_⟩
  · intro s id st h hne
    unfold State.get_or_create_release
    rw [h]
    simp only [h]
    cases st with
    | release r => exact absurd rfl (hne r)
    | question q => rfl
    | recurring r => rfl
  · intro s id h
    unfold State.get_or_create_release
    rw [h]
    simp [lookupA_insertA_self]
  · intro s id r h
    unfold State.get_or_create_release
    rw [h]
    simp only [h]
  · intro s id st h hne
    unfold State.get_or_create_question
    rw [h]
    simp only [h]
    cases st with
    | release r => rfl
    | question q => exact absurd rfl (hne q)
    | recurring r => rfl
  · intro s id h
    unfold State.get_or_create_question
    rw [h]
    simp [lookupA_insertA_self]
  · intro s id q h
    unfold State.get_or_create_question
    rw [h]
    simp only [h]
  · intro s id st h hne
    unfold State.get_or_create_recurring
    rw [h]
    simp only [h]
    cases st with
    | release r => rfl
    | question q => rfl
    | recurring r => exact absurd rfl (hne r)
  · intro s id h
    unfold State.get_or_create_recurring
    rw [h]
    simp [lookupA_insertA_self]
  · intro s id r h
    unfold State.get_or_create_recurring
    rw [h]
    simp only [h]

/-- Witness for C9: a stored Question state makes the Release accessor
panic. -/
theorem wrong_variant_accessor_panics_witness :
    lookupA stQuestion.subjects 1 = some (.question QuestionState.default) ∧
    stQuestion.get_or_create_release 1 = none :=
  ⟨by decide,
   wrong_variant_accessor_panics.1 stQuestion 1
     (.question QuestionState.default) (by decide) (fun r h => by cases h)⟩

/-- C10: the precision and confidence comparisons are strict orders
(irreflexive and transitive), and a finding whose date equals the stored
date with no strict precision or confidence improvement classifies as
exactly "Status Update". -/
theorem strict_orders_status_update :
    (∀ a : DatePrecision, a.is_more_precise_than a = false) ∧
    (∀ a b c : DatePrecision, a.is_more_precise_than b = true →
       b.is_more_precise_than c = true → a.is_more_precise_than c = true) ∧
    (∀ a : Confidence, a.is_higher_than a = false) ∧
    (∀ a b c : Confidence, a.is_higher_than b = true →
       b.is_higher_than c = true → a.is_higher_than c = true) ∧
    (∀ (response : ReleaseResponse) (prev : ReleaseState),
       prev.known_release_date = response.found_release_date →
       response.release_date_precision.is_more_precise_than
         prev.release_date_precision = false →
       response.confidence.is_higher_than prev.confidence = false →
       determine_release_event_type response (some prev) = "Status Update") := by
  refine ⟨?_, ?_, ?_, ?_, ?_⟩
  · intro a
    cases a <;> rfl
  · intro a b c hab hbc
    revert hab hbc
    cases a <;> cases b <;> cases c <;> decide
  · intro a
    cases a <;> rfl
  · intro a b c hab hbc
    revert hab hbc
    cases a <;> cases b <;> cases c <;> decide
  · intro response prev h1 h2 h3
    simp only [determine_release_event_type, h1, h2, h3]
    cases hd : response.found_release_date <;> simp [hd]

/-- Witness for C10 at a concrete unchanged finding. -/
theorem strict_orders_status_update_witness :
    prevSame.known_release_date = respX.found_release_date ∧
    determine_release_event_type respX (some prevSame) = "Status Update" :=
  ⟨rfl,
   strict_orders_status_update.2.2.2.2 respX prevSame rfl (by decide) (by decide)⟩

/-- C1: evaluating the embedded `run_check` at a failing input: the
subject sits one failure below `maxConsecutiveFailures = 3`, its backend
investigation fails in a non-dry-run check, and the increment reaches the
threshold — yet the run attempts no email delivery at all (in particular
no administrative notification from `build_subject_disabled_email`, which
has no call site) and performs no configuration mutation: the code only
stores the incremented counter with the classified reason and time. -/
theorem failed_check_at_threshold_no_disable_no_email :
    (run_check_pure cfgX stX none false false false
      (fun _ _ => .error (.ClaudeTimeout 30)) false (fun _ => true) 100).map
      (fun out => (out.emails, out.exit, lookupA out.state.subjects 1)) =
    .ok ([], .AllSubjectsFailed,
      some (.release { ReleaseState.default with
        consecutive_failures := 3
        last_failure_reason := some "timeout"
        last_failure_time := some 100 })) := by
  decide

/-- C2: when the whole-batch timeout elapses (with one enabled subject
selected and a positive run timeout), `run_check` discards the batch,
computes zero failures over an empty result list, and returns the
`Success` exit class (code 0) — not the distinct `Timeout` class (code 5)
that `ExitStatus` reserves. -/
theorem batch_timeout_classified_success_not_timeout :
    (run_check_pure cfgX stX none false false false
      (fun _ _ => .error (.ClaudeTimeout 30)) true (fun _ => true) 100).map
      (fun out => (out.exit, out.results)) = .ok (.Success, []) ∧
    ExitStatus.Success ≠ ExitStatus.Timeout ∧
    ExitStatus.Success.code = 0 ∧ ExitStatus.Timeout.code = 5 := by
  refine ⟨by decide, by decide, rfl, rfl⟩

/-- C3 counterexample: a subject with no stored `SubjectState` whose first
non-dry-run check fails leaves the state map empty — no `SubjectState`
exists for it afterwards and no failure is recorded, refuting the claimed
get-or-create semantics on the failure path. -/
theorem failed_first_check_creates_no_state :
    (process_failed_check cfgX subjX (.ClaudeTimeout 30) State.default false 3 100).2.subjects
      = [] ∧
    lookupA (process_failed_check cfgX subjX (.ClaudeTimeout 30) State.default
      false 3 100).2.subjects subjX.id = none := by
  refine ⟨by decide, by decide⟩

/-- C3 (amended): a `SubjectState` is created by get-or-create on the
first successful non-dry-run check; a failed check only mutates an
already-existing state, so a failed first check leaves the state map
unchanged. -/
theorem state_created_on_first_success_only :
    (∀ (config : Config) (subject : Subject) (response : ReleaseResponse)
       (s : State) (now : Nat),
       lookupA s.subjects subject.id = none →
       (process_release_response config subject response s false now).map
         (fun out => (lookupA out.1.subjects subject.id).isSome) = some true) ∧
    (∀ (config : Config) (subject : Subject) (e : HeadsupError) (s : State)
       (max_failures now : Nat),
       lookupA s.subjects subject.id = none →
       (process_failed_check config subject e s false max_failures now).2 = s) := by
  constructor
  · intro config subject response s now h
    unfold process_release_response
    rw [get_or_create_release_of_none s subject.id h]
    simp only [Bool.false_eq_true, if_false, Option.map_some']
    rw [Option.some_inj]
    refine add_history_isSome _ _ _ _ ?_
    simp [lookupA_insertA_self]
  · intro config subject e s max_failures now h
    simp [process_failed_check, h]

/-- Witness for the amended C3: the concrete subject with no stored state
gets a state from a successful check, and keeps none from a failed one. -/
theorem state_created_on_first_success_only_witness :
    lookupA State.default.subjects subjX.id = none ∧
    (process_release_response cfgX subjX respX State.default false 5).map
      (fun out => (lookupA out.1.subjects subjX.id).isSome) = some true ∧
    (process_failed_check cfgX subjX (.ClaudeTimeout 30) State.default false 3 100).2 =
      State.default :=
  ⟨rfl,
   state_created_on_first_success_only.1 cfgX subjX respX State.default 5 rfl,
   state_created_on_first_success_only.2 cfgX subjX (.ClaudeTimeout 30) State.default
     3 100 rfl⟩

set_option maxRecDepth 40000 in
/-- C6: appending a history entry through `add_history` appends exactly
one entry and evicts from the front down to the configured maximum, so
the stored history is the drop-from-the-front suffix, its length is
`min (old + 1) max`, and nothing is evicted while below the maximum;
concretely, 60 successive successful checks with a maximum of 50 leave
exactly the 50 most recent entries (timestamps 10..59). -/
theorem history_append_bounded_fifo :
    (∀ (s : State) (id : Uuid) (entry : HistoryEntry) (m : Nat) (st : SubjectState),
       lookupA s.subjects id = some st →
       lookupA (s.add_history id entry m).subjects id =
         some (st.set_history ((st.history ++ [entry]).drop (st.history.length + 1 - m))) ∧
       ((st.history ++ [entry]).drop (st.history.length + 1 - m)).length =
         min (st.history.length + 1) m ∧
       (st.history.length < m →
         (st.history ++ [entry]).drop (st.history.length + 1 - m) =
           st.history ++ [entry])) ∧
    (repeated_release_checks cfgX subjX (fun _ => respX) 60 State.default).map
      (fun s => (lookupA s.subjects 1).map
        (fun st => st.history.map (fun e => e.timestamp))) =
    some (some (List.range' 10 50)) := by
  constructor
  · intro s id entry m st h
    refine ⟨add_history_lookup_some s id entry m st h, ?_, ?_⟩
    · rw [List.length_drop]
      simp only [List.length_append, List.length_singleton]
      omega
    · intro hlt
      have hz : st.history.length + 1 - m = 0 := by omega
      rw [hz, List.drop_zero]
  · decide

/-- Witness for C6 at a concrete one-entry history below the maximum. -/
theorem history_append_bounded_fifo_witness :
    lookupA stX.subjects 1 = some stRel2 ∧
    lookupA (stX.add_history 1 entry9 50).subjects 1 =
      some (stRel2.set_history ((stRel2.history ++ [entry9]).drop
        (stRel2.history.length + 1 - 50))) :=
  ⟨by decide, (history_append_bounded_fifo.1 stX 1 entry9 50 stRel2 (by decide)).1⟩

/-- C7: subject selection resolves the target set, then drops subjects at
or over the consecutive-failure threshold, then truncates to
`maxSearchesPerRun`; consequently the selected list never exceeds the
search budget, is an order-preserving sublist of the resolved targets,
and contains no subject whose stored state has reached the threshold. -/
theorem selection_budget_and_threshold :
    ∀ (config : Config) (state : State) (subject_key : Option String)
      (max_failures max_searches : Nat) (targets : List Subject),
      resolve_targets config subject_key = .ok targets →
      (filter_and_truncate state targets max_failures max_searches).length ≤
        max_searches ∧
      (filter_and_truncate state targets max_failures max_searches).Sublist targets ∧
      (∀ subj ∈ filter_and_truncate state targets max_failures max_searches,
        ∀ st, lookupA state.subjects subj.id = some st →
          st.consecutive_failures < max_failures) := by
  intro config state subject_key maxf maxs targets _h
  refine ⟨?_, ?_, ?_⟩
  · simp only [filter_and_truncate]
    exact List.length_take_le _ _
  · simp only [filter_and_truncate]
    exact (List.take_sublist _ _).trans (List.filter_sublist _)
  · intro subj hmem st hst
    simp only [filter_and_truncate] at hmem
    have hmem2 := List.mem_of_mem_take hmem
    have hp := (List.mem_filter.mp hmem2).2
    simp only [hst] at hp
    by_cases hc : st.consecutive_failures ≥ maxf
    · simp [hc] at hp
    · omega

/-- Witness for C7: the concrete subject with two failures (threshold 3)
survives selection under a budget of 10. -/
theorem selection_budget_and_threshold_witness :
    resolve_targets cfgX none = .ok [subjX] ∧
    (filter_and_truncate stX [subjX] 3 10).length ≤ 10 :=
  ⟨rfl, (selection_budget_and_threshold cfgX stX none 3 10 [subjX] rfl).1⟩

/-- C4: draining a non-empty pending queue is all-or-nothing: the run
always re-persists, a failed delivery restores every drained entry (the
queue afterwards equals the original queue, not a partial remainder), and
a fully successful delivery leaves the queue empty. -/
theorem notify_drain_all_or_nothing :
    ∀ (config : Config) (state0 : State) (digest : Bool)
      (send_ok : EmailContent → Bool),
      state0.pending_notifications ≠ [] →
      (run_notify_pure config state0 false digest send_ok).saved = true ∧
      ((run_notify_pure config state0 false digest send_ok).exit = .Success ∨
       (run_notify_pure config state0 false digest send_ok).exit =
         .EmailDeliveryFailed) ∧
      ((run_notify_pure config state0 false digest send_ok).exit =
         .EmailDeliveryFailed →
        (run_notify_pure config state0 false digest send_ok).state.pending_notifications
          = state0.pending_notifications) ∧
      ((run_notify_pure config state0 false digest send_ok).exit = .Success →
        (run_notify_pure config state0 false digest send_ok).state.pending_notifications
          = []) := by
  intro config state0 digest send_ok h
  have hne : state0.pending_notifications.isEmpty = false := by
    cases hp : state0.pending_notifications with
    | nil => exact absurd hp h
    | cons a t => rfl
  unfold run_notify_pure
  rw [hne]
  simp only [Bool.false_eq_true, if_false, State.clear_pending_notifications]
  cases hr : (if (digest || config.email.digest_mode) = true then
      send_digest_pure config state0.pending_notifications send_ok
    else send_individual_pure config state0.pending_notifications send_ok) with
  | ok n => simp [hr]
  | error e => simp [hr, pending_foldl_add]

/-- Witness for C4: a one-entry queue whose delivery fails is fully
restored. -/
theorem notify_drain_all_or_nothing_witness :
    stPending.pending_notifications ≠ [] ∧
    (run_notify_pure cfgX stPending false false
        (fun _ => false)).state.pending_notifications =
      stPending.pending_notifications :=
  ⟨by decide,
   (notify_drain_all_or_nothing cfgX stPending false (fun _ => false)
     (by decide)).2.2.1 (by decide)⟩

theorem process_failed_check_dry (config : Config) (subject : Subject)
    (e : HeadsupError) (s : State) (max_failures now : Nat) :
    process_failed_check config subject e s true max_failures now =
      ({ subject_id := subject.id, subject_name := subject.name, success := false,
         notified := false, error := some e.toMessage }, s) := rfl

theorem process_release_response_dry_frame (config : Config) (subject : Subject)
    (response : ReleaseResponse) (s : State) (now : Nat) (s1 : State) (flag : Bool)
    (h : process_release_response config subject response s true now = some (s1, flag)) :
    (∀ j st, lookupA s.subjects j = some st → lookupA s1.subjects j = some st) ∧
    s1.pending_notifications = s.pending_notifications := by
  unfold process_release_response State.get_or_create_release at h
  cases hl : lookupA s.subjects subject.id with
  | none =>
      simp only [hl, lookupA_insertA_self, if_true] at h
      injection h with h1
      injection h1 with h2 h3
      subst h2
      constructor
      · intro j st hj
        by_cases hji : j = subject.id
        · rw [hji] at hj
          rw [hj] at hl
          cases hl
        · simpa [lookupA_insertA_of_ne _ _ _ _ hji] using hj
      · rfl
  | some st0 =>
      simp only [hl] at h
      cases st0 with
      | release r =>
          simp only [if_true] at h
          injection h with h1
          injection h1 with h2 h3
          subst h2
          exact ⟨fun j st hj => hj, rfl⟩
      | question q => cases h
      | recurring r => cases h

theorem process_question_response_dry_frame (config : Config) (subject : Subject)
    (response : QuestionResponse) (s : State) (now : Nat) (s1 : State) (flag : Bool)
    (h : process_question_response config subject response s true now = some (s1, flag)) :
    (∀ j st, lookupA s.subjects j = some st → lookupA s1.subjects j = some st) ∧
    s1.pending_notifications = s.pending_notifications := by
  unfold process_question_response State.get_or_create_question at h
  cases hl : lookupA s.subjects subject.id with
  | none =>
      simp only [hl, lookupA_insertA_self, if_true] at h
      injection h with h1
      injection h1 with h2 h3
      subst h2
      constructor
      · intro j st hj
        by_cases hji : j = subject.id
        · rw [hji] at hj
          rw [hj] at hl
          cases hl
        · simpa [lookupA_insertA_of_ne _ _ _ _ hji] using hj
      · rfl
  | some st0 =>
      simp only [hl] at h
      cases st0 with
      | question q =>
          simp only [if_true] at h
          injection h with h1
          injection h1 with h2 h3
          subst h2
          exact ⟨fun j st hj => hj, rfl⟩
      | release r => cases h
      | recurring r => cases h

theorem process_recurring_response_dry_frame (config : Config) (subject : Subject)
    (response : RecurringResponse) (s : State) (now : Nat) (s1 : State) (flag : Bool)
    (h : process_recurring_response config subject response s true now = some (s1, flag)) :
    (∀ j st, lookupA s.subjects j = some st → lookupA s1.subjects j = some st) ∧
    s1.pending_notifications = s.pending_notifications := by
  unfold process_recurring_response State.get_or_create_recurring at h
  cases hl : lookupA s.subjects subject.id with
  | none =>
      simp only [hl, lookupA_insertA_self, if_true] at h
      injection h with h1
      injection h1 with h2 h3
      subst h2
      constructor
      · intro j st hj
        by_cases hji : j = subject.id
        · rw [hji] at hj
          rw [hj] at hl
          cases hl
        · simpa [lookupA_insertA_of_ne _ _ _ _ hji] using hj
      · rfl
  | some st0 =>
      simp only [hl] at h
      cases st0 with
      | recurring r =>
          simp only [if_true] at h
          injection h with h1
          injection h1 with h2 h3
          subst h2
          exact ⟨fun j st hj => hj, rfl⟩
      | release r => cases h
      | question q => cases h

theorem process_successful_check_dry_frame (config : Config) (subject : Subject)
    (response : ClaudeResponse) (s : State) (no_notify : Bool)
    (send_ok : EmailContent → Bool) (now : Nat) (result : CheckResult) (s1 : State)
    (em : List EmailContent)
    (h : process_successful_check config subject response s true no_notify send_ok now
      = some (result, s1, em)) :
    (∀ j st, lookupA s.subjects j = some st → lookupA s1.subjects j = some st) ∧
    s1.pending_notifications = s.pending_notifications ∧
    em = [] ∧ result.notified = false := by
  unfold process_successful_check at h
  cases response with
  | release r =>
      dsimp only at h
      cases hp : process_release_response config subject r s true now with
      | none => rw [hp] at h; cases h
      | some t =>
          obtain ⟨s1', flag⟩ := t
          rw [hp] at h
          simp only [Bool.not_true, Bool.and_false, Bool.false_eq_true, if_false] at h
          injection h with h1
          injection h1 with h2 h3
          injection h3 with h4 h5
          subst h2
          subst h4
          subst h5
          obtain ⟨f1, f2⟩ := process_release_response_dry_frame config subject r s now _ _ hp
          exact ⟨f1, f2, rfl, rfl⟩
  | question r =>
      dsimp only at h
      cases hp : process_question_response config subject r s true now with
      | none => rw [hp] at h; cases h
      | some t =>
          obtain ⟨s1', flag⟩ := t
          rw [hp] at h
          simp only [Bool.not_true, Bool.and_false, Bool.false_eq_true, if_false] at h
          injection h with h1
          injection h1 with h2 h3
          injection h3 with h4 h5
          subst h2
          subst h4
          subst h5
          obtain ⟨f1, f2⟩ := process_question_response_dry_frame config subject r s now _ _ hp
          exact ⟨f1, f2, rfl, rfl⟩
  | recurring r =>
      dsimp only at h
      cases hp : process_recurring_response config subject r s true now with
      | none => rw [hp] at h; cases h
      | some t =>
          obtain ⟨s1', flag⟩ := t
          rw [hp] at h
          simp only [Bool.not_true, Bool.and_false, Bool.false_eq_true, if_false] at h
          injection h with h1
          injection h1 with h2 h3
          injection h3 with h4 h5
          subst h2
          subst h4
          subst h5
          obtain ⟨f1, f2⟩ := process_recurring_response_dry_frame config subject r s now _ _ hp
          exact ⟨f1, f2, rfl, rfl⟩
  | subjectIdentification r =>
      dsimp only at h
      simp only [Bool.false_and, Bool.false_eq_true, if_false] at h
      injection h with h1
      injection h1 with h2 h3
      injection h3 with h4 h5
      subst h2
      subst h4
      subst h5
      exact ⟨fun j st hj => hj, rfl, rfl, rfl⟩

theorem processAll_dry_frame (config : Config) (no_notify : Bool)
    (send_ok : EmailContent → Bool) (max_failures now : Nat) :
    ∀ (l : List (Subject × Except HeadsupError (ClaudeResponse × Bool))) (s : State)
      (results : List CheckResult) (emails : List EmailContent) (s1 : State)
      (results1 : List CheckResult) (emails1 : List EmailContent),
      processAll config true no_notify send_ok max_failures now l s results emails =
        .ok (s1, results1, emails1) →
      (∀ j st, lookupA s.subjects j = some st → lookupA s1.subjects j = some st) ∧
      s1.pending_notifications = s.pending_notifications ∧
      emails1 = emails ∧
      (∀ r ∈ results1, r ∈ results ∨ r.notified = false) := by
  intro l
  induction l with
  | nil =>
      intro s results emails s1 results1 emails1 h
      simp only [processAll] at h
      injection h with h1
      injection h1 with h2 h3
      injection h3 with h4 h5
      subst h2
      subst h4
      subst h5
      exact ⟨fun j st hj => hj, rfl, rfl, fun r hr => .inl hr⟩
  | cons p rest ih =>
      intro s results emails s1 results1 emails1 h
      obtain ⟨subject, cr⟩ := p
      cases cr with
      | ok pr =>
          obtain ⟨response, flag⟩ := pr
          simp only [processAll] at h
          cases hp : process_successful_check config subject response s true no_notify
              send_ok now with
          | none => rw [hp] at h; cases h
          | some t =>
              obtain ⟨result, s2, em2⟩ := t
              rw [hp] at h
              obtain ⟨f1, f2, f3, f4⟩ := ih _ _ _ _ _ _ h
              obtain ⟨g1, g2, g3, g4⟩ := process_successful_check_dry_frame config
                subject response s no_notify send_ok now result s2 em2 hp
              subst g3
              refine ⟨fun j st hj => f1 j st (g1 j st hj), f2.trans g2,
                by simpa using f3, ?_⟩
              intro r hr
              rcases f4 r hr with hmem | hnot
              · rcases List.mem_append.mp hmem with hm1 | hm2
                · exact .inl hm1
                · have hreq : r = result := by simpa using hm2
                  exact .inr (hreq ▸ g4)
              · exact .inr hnot
      | error e =>
          simp only [processAll, process_failed_check_dry] at h
          obtain ⟨f1, f2, f3, f4⟩ := ih _ _ _ _ _ _ h
          refine ⟨f1, f2, f3, ?_⟩
          intro r hr
          rcases f4 r hr with hmem | hnot
          · rcases List.mem_append.mp hmem with hm1 | hm2
            · exact .inl hm1
            · rw [List.mem_singleton] at hm2
              exact .inr (by rw [hm2])
          · exact .inr hnot

/-- C5: a dry-run check never mutates any existing `SubjectState`, never
touches the pending-notification queue, attempts no delivery, reports
every subject as not notified, and never saves the state document — so
the persisted state is unchanged (results are still computed for each
subject). -/
theorem dry_run_preserves_state :
    ∀ (config : Config) (state0 : State) (subject_key : Option String)
      (force no_notify : Bool)
      (investigate : Subject → Option SubjectState → Except HeadsupError ClaudeResponse)
      (batch_timed_out : Bool) (send_ok : EmailContent → Bool) (now : Nat)
      (out : RunOutput),
      run_check_pure config state0 subject_key true force no_notify investigate
        batch_timed_out send_ok now = .ok out →
      out.saved = false ∧
      out.state.pending_notifications = state0.pending_notifications ∧
      (∀ j st, lookupA state0.subjects j = some st →
         lookupA out.state.subjects j = some st) ∧
      out.emails = [] ∧
      (∀ r ∈ out.results, r.notified = false) := by
  intro config state0 subject_key force no_notify investigate batch_timed_out send_ok
    now out h
  unfold run_check_pure at h
  split at h
  · cases h
  · dsimp only at h
    split at h
    · injection h with h1
      subst h1
      exact ⟨rfl, rfl, fun j st hj => hj, rfl, fun r hr => absurd hr (by simp)⟩
    · split at h
      · injection h with h1
        subst h1
        exact ⟨rfl, rfl, fun j st hj => hj, rfl, fun r hr => absurd hr (by simp)⟩
      · split at h
        · cases h
        · cases h
        · rename_i s1 results emails hpa
          injection h with h1
          subst h1
          obtain ⟨f1, f2, f3, f4⟩ := processAll_dry_frame config no_notify send_ok
            _ now _ state0 [] [] s1 results emails hpa
          refine ⟨rfl, f2, f1, f3, ?_⟩
          intro r hr
          rcases f4 r hr with hmem | hnot
          · exact absurd hmem (by simp)
          · exact hnot

/-- Witness for C5 at a concrete dry run over an empty subject list. -/
theorem dry_run_preserves_state_witness :
    run_check_pure cfgEmpty State.default none true false false
        (fun _ _ => .error (.ClaudeTimeout 30)) false (fun _ => true) 5 =
      .ok { state := State.default, saved := false, exit := .Success,
            results := [], emails := [] } ∧
    ({ state := State.default, saved := false, exit := .Success,
       results := [], emails := [] } : RunOutput).saved = false ∧
    ({ state := State.default, saved := false, exit := .Success,
       results := [], emails := [] } : RunOutput).emails = [] :=
  ⟨by decide,
   (dry_run_preserves_state cfgEmpty State.default none false false
     (fun _ _ => .error (.ClaudeTimeout 30)) false (fun _ => true) 5
     { state := State.default, saved := false, exit := .Success,
       results := [], emails := [] } (by decide)).1,
   (dry_run_preserves_state cfgEmpty State.default none false false
     (fun _ _ => .error (.ClaudeTimeout 30)) false (fun _ => true) 5
     { state := State.default, saved := false, exit := .Success,
       results := [], emails := [] } (by decide)).2.2.2.1⟩

end Headsup
